import Mathlib

/-!
Verification of the geo-projection and layered rendering engine of the
30DayMapChallenge "Out of this world" map (MapTab.vue and its callers).

The engine draws a world map under a d3 azimuthal-equidistant projection,
overlays concentric planet rings in two metric modes ('distance' and
'radius'), and plots city markers.  The definitions below are a shallow
embedding of the source: numeric state is modelled over the reals, the
d3 keyed enter/update/exit join over finite key sets, and the
lifecycle/debounce logic over natural-number time.
-/

namespace PlanetRings

/-- Metric mode of the ring overlay: the two keys of the source's
`ringConfigurations` table ('distance' and 'radius'). -/
inductive RingMode
  | distance
  | radius
  deriving DecidableEq

/-- The two own keys of the `ringConfigurations` object literal, mapped
to their typed modes.  This covers only the own-property part of the
JavaScript bracket lookup: inherited `Object.prototype` property names
are also truthy under `ringConfigurations[mode]`, which `ringConfigLookup`
below models in full. -/
def parseMode : String → Option RingMode
  | "distance" => some RingMode.distance
  | "radius" => some RingMode.radius
  | _ => none

/-- Maximum number of `tryCreateMap` attempts, from `initMap`
(`const maxAttempts = 20`). -/
def maxAttempts : ℕ := 20

/-- Fixed retry delay between container-sizing attempts, from
`setTimeout(tryCreateMap, 100)` in `initMap`. -/
def retryDelayMs : ℕ := 100

/-- Model of the `tryCreateMap` retry loop of `initMap`.  `ok n` tells
whether the n-th (0-based) call of `createMap` succeeds, i.e. whether the
container reports a nonzero size then.  The source checks
`attempts >= maxAttempts` before incrementing and trying again, so at most
`maxAttempts` actual creation attempts happen; exhausting them ends the
loop with a logged terminal failure (modelled as `false` = never Ready). -/
def tryCreateMapFrom (ok : ℕ → Bool) (attempts : ℕ) : Bool :=
  if h : maxAttempts ≤ attempts then false
  else if ok attempts then true
  else tryCreateMapFrom ok (attempts + 1)
termination_by maxAttempts - attempts
decreasing_by simp_wf; omega

/-- Result of `initMap`'s sizing loop started at attempt counter 0
(after the world data has loaded successfully): `true` means the engine
completed `createMap` and reaches Ready, `false` means the terminal
sizing failure. -/
def initMapResult (ok : ℕ → Bool) : Bool :=
  tryCreateMapFrom ok 0

/-- Debounce quiescence window of the resize observer, from
`setTimeout(..., 200)` in `setupResizeObserver`. -/
def debounceWindowMs : ℕ := 200

/-- Number of times the debounced resize callback (`invalidateSize`) runs
for a sorted burst of resize-notification times.  Each notification clears
the pending timer and re-arms it for `window` ms later, so the timer armed
at `t1` fires only when the next notification does not arrive strictly
before `t1 + window`; the final notification always fires after the
window elapses. -/
def debounceFires (window : ℕ) : List ℕ → ℕ
  | [] => 0
  | [_] => 1
  | t1 :: t2 :: rest => (if t1 + window ≤ t2 then 1 else 0) + debounceFires window (t2 :: rest)

/-- Burst shape of claim C7: every notification arrives strictly within
`window` ms of the previous one. -/
def gapsWithin (window : ℕ) : List ℕ → Prop
  | [] => True
  | [_] => True
  | t1 :: t2 :: rest => t2 < t1 + window ∧ gapsWithin window (t2 :: rest)

/-- Keyed enter/update/exit reconciliation of a d3 data join
(`selection.data(rings, d => d.index)` followed by `enter().append`,
`merge` and `exit().remove()`): elements whose key matches incoming data
are kept (update), data keys with no element are appended (enter), and
elements whose key is absent from the data are removed (exit). -/
def dataJoin (existing dataKeys : Finset ℕ) : Finset ℕ :=
  (existing ∩ dataKeys) ∪ (dataKeys \ existing)

noncomputable section

/-- Bounding rectangle of the map container, as read from
`getBoundingClientRect()`. -/
structure Rect where
  width : ℝ
  height : ℝ

/-- Per-mode display factor table, from `mapScaleFactors` in MapTab.vue
(`distance: 1.05, radius: 0.6`). -/
def mapScaleFactors : RingMode → ℝ
  | RingMode.distance => 1.05
  | RingMode.radius => 0.6

/-- Fixed viewport padding, from `const padding = 32` inside `getScale`. -/
def padding : ℝ := 32

/-- Projection scale, from `getScale` in MapTab.vue: the smaller of the
padded container dimensions times the active mode's factor.  The ring mode
is read from component state in the source (`ringMode.value`, with a `??`
fallback that cannot fire for a well-typed mode) and is passed explicitly
here. -/
def getScale (rect : Rect) (mode : RingMode) : ℝ :=
  min (rect.width - padding * 2) (rect.height - padding * 2) * mapScaleFactors mode

/-- Metric values of the two ring tables, from
`ringConfigurations.distance.radiiKm` and
`ringConfigurations.radius.radiiKm`. -/
def ringConfigRadiiKm : RingMode → List ℝ
  | RingMode.distance => [57.91, 108.2, 149.6, 227.9, 778.3, 1427, 2871, 4504]
  | RingMode.radius => [69911, 58232, 25362, 24622, 6371, 6052, 3389, 2440]

/-- Ring labels of the two ring tables, from `ringConfigurations.*.names`. -/
def ringConfigNames : RingMode → List String
  | RingMode.distance => ["水星", "金星", "地球", "火星", "木星", "土星", "天王星", "海王星"]
  | RingMode.radius => ["木星", "土星", "天王星", "海王星", "地球", "金星", "火星", "水星"]

/-- Earth radius in meters, from `const earthRadiusMeters = 6371000` in
`drawDistanceRings`. -/
def earthRadiusMeters : ℝ := 6371000

/-- One entry of the `rings` array built by `drawDistanceRings`.  The
display formatter and unit strings of the source are omitted (pure
presentation); the boundary entry of the source carries no label or
original value, modelled as `""` and `none`. -/
structure RingDatum where
  index : ℕ
  radiusPx : ℝ
  isBoundary : Bool
  label : String
  originalValue : Option ℝ

/-- The `rings` array of `drawDistanceRings` for a mode and the current
projection scale: one entry per metric value (index = position in the
table, radius in pixels after the radius-mode division by 10 and the
km→m→angular→pixel conversion), plus the permanent earth-boundary circle
at index 999 with pixel radius `scale * π`. -/
def ringDataFor (mode : RingMode) (scale : ℝ) : List RingDatum :=
  ((ringConfigRadiiKm mode).enum.map (fun p => ({
      index := p.1,
      radiusPx := scale * ((if mode = RingMode.radius then p.2 / 10 else p.2) * 1000 / earthRadiusMeters),
      isBoundary := false,
      label := (ringConfigNames mode).getD p.1 ("行星 " ++ toString (p.1 + 1)),
      originalValue := some p.2 } : RingDatum)))
  ++ [{ index := 999, radiusPx := scale * Real.pi, isBoundary := true,
        label := "", originalValue := none }]

/-- Projection parameters owned by the engine: the d3 rotate pair (in
degrees), the scale, and the translate point. -/
structure Projection where
  rotateLambda : ℝ
  rotatePhi : ℝ
  scale : ℝ
  translateX : ℝ
  translateY : ℝ

/-- Engine-owned state of MapTab.vue: whether the SVG and projection have
been created (`svg`/`projection` non-null), the container rect, the active
ring mode, the projection parameters, the reconciled ring-circle keys and
their drawn pixel radii, the ring-tooltip visibility, and a counter of
completed full render passes (basemap paths + rings + markers), which
abstracts the country-path and city-marker redraw that accompanies every
ring redraw. -/
structure EngineState where
  ready : Bool
  rect : Rect
  ringMode : RingMode
  proj : Projection
  ringKeys : Finset ℕ
  ringRadii : List ℝ
  tooltipVisible : Bool
  drawCount : ℕ

/-- Model of `drawDistanceRings`: guarded on the engine being created,
hides the ring tooltip, rebuilds the `rings` array from the active mode
and the current projection scale, and reconciles the circle elements by
index key (enter/update/exit). -/
def drawDistanceRings (s : EngineState) : EngineState :=
  if s.ready then
    { s with tooltipVisible := false,
             ringRadii := (ringDataFor s.ringMode s.proj.scale).map RingDatum.radiusPx,
             ringKeys := dataJoin s.ringKeys
               ((ringDataFor s.ringMode s.proj.scale).map RingDatum.index).toFinset }
  else s

/-- One full synchronous render pass in source order: country paths via
`attr('d', path)`, then `drawDistanceRings()`, then `drawCityMarkers()`.
The basemap and marker redraws leave no claim-relevant state beyond the
pass counter. -/
def renderAllLayers (s : EngineState) : EngineState :=
  let s1 := drawDistanceRings s
  { s1 with drawCount := s1.drawCount + 1 }

/-- Model of `refreshProjection`: early return unless the projection and
layer group exist; otherwise hide the tooltip, recompute scale and
translate from the current rect (rotation unchanged), and re-render all
layers. -/
def refreshProjection (s : EngineState) : EngineState :=
  if s.ready then
    let p := { s.proj with scale := getScale s.rect s.ringMode, translateX := s.rect.width / 2, translateY := s.rect.height / 2 }
    renderAllLayers { s with tooltipVisible := false, proj := p }
  else s

/-- Model of `navigateToLocation`: the guard `if (!svg || !projection)
return;` makes a pre-Ready call a bare no-op that emits no log.  When
ready, the projection is rotated to `[-center[0], -center[1]]`, translated
to the viewport center, rescaled via `getScale`, all layers are re-rendered
and the completion message is logged.  The second component collects the
console output of the call. -/
def navigateToLocation (s : EngineState) (center : ℝ × ℝ) : EngineState × List String :=
  if s.ready then
    let p : Projection := { rotateLambda := -center.1, rotatePhi := -center.2, scale := getScale s.rect s.ringMode, translateX := s.rect.width / 2, translateY := s.rect.height / 2 }
    (renderAllLayers { s with proj := p }, ["[MapTab] 地圖導航完成"])
  else (s, [])

/-- Model of `invalidateSize` (the debounced resize callback): guarded on
the SVG existing, recomputes scale and translate from the current rect and
re-renders all layers. -/
def invalidateSize (s : EngineState) : EngineState :=
  if s.ready then
    let p := { s.proj with scale := getScale s.rect s.ringMode, translateX := s.rect.width / 2, translateY := s.rect.height / 2 }
    renderAllLayers { s with proj := p }
  else s

/-- Model of `changeRingMode` plus the `watch(ringMode, ...)` reaction,
restricted to mode strings that do not hit the prototype chain (the
behavior at every string, including the inherited `Object.prototype`
property names that leak through the guard, is `changeRingModeJs` below):
a string missing from the table entirely is ignored with no state change;
writing the already-active mode to the `ringMode` ref does not change its
value, so the Vue watcher does not fire (refs trigger only on actual
value change); a genuine change hides the tooltip and runs
`refreshProjection`. -/
def changeRingMode (s : EngineState) (mode : String) : EngineState :=
  match parseMode mode with
  | none => s
  | some m =>
      if m = s.ringMode then s
      else refreshProjection { s with ringMode := m, tooltipVisible := false }

/-- Initial projection center, from `rotate([-120.982025, -23.973875])`
in `createMap` (the Taiwan geographic center used at creation). -/
def taiwanCenterLon : ℝ := 120.982025

/-- Latitude of the initial projection center used by `createMap`. -/
def taiwanCenterLat : ℝ := 23.973875

/-- Engine state right after a successful `createMap` on a container of
the given rect: SVG and projection created (ready), initial mode
'distance', rotation at the Taiwan center, scale from `getScale`,
translate at the viewport center, no rendered rings yet. -/
def createdState (rect : Rect) : EngineState :=
  { ready := true, rect := rect, ringMode := RingMode.distance,
    proj := { rotateLambda := -taiwanCenterLon, rotatePhi := -taiwanCenterLat, scale := getScale rect RingMode.distance, translateX := rect.width / 2, translateY := rect.height / 2 },
    ringKeys := ∅, ringRadii := [], tooltipVisible := false, drawCount := 0 }

/-- Engine state after `createMap` and the first `drawWorldMap` pass for
the given container rect (the Sizing → Ready transition). -/
def initialDraw (rect : Rect) : EngineState :=
  renderAllLayers (createdState rect)

/-- Concrete 1000×800 ready state used to witness the claims. -/
def readyState : EngineState := createdState { width := 1000, height := 800 }

/-- Concrete pre-Ready state: `svg` and `projection` not yet created.  The
dummy projection parameters stand for the null references of the source. -/
def preReadyState : EngineState :=
  { ready := false, rect := { width := 1000, height := 800 },
    ringMode := RingMode.distance,
    proj := { rotateLambda := 0, rotatePhi := 0, scale := 0,
              translateX := 0, translateY := 0 },
    ringKeys := ∅, ringRadii := [], tooltipVisible := false, drawCount := 0 }

/-- The `cx` attribute assigned to a city marker from its projection
result, from `drawCityMarkers`: `projected ? projected[0] : 0`, so a null
projection yields the fallback coordinate 0. -/
def cityMarkerCx (projected : Option (ℝ × ℝ)) : ℝ :=
  match projected with
  | some q => q.1
  | none => 0

/-- The `cy` attribute assigned to a city marker, from `drawCityMarkers`:
`projected ? projected[1] : 0`. -/
def cityMarkerCy (projected : Option (ℝ × ℝ)) : ℝ :=
  match projected with
  | some q => q.2
  | none => 0

/-- Screen positions assigned by one `drawCityMarkers` pass to a list of
per-marker projection results (one position per marker, in order). -/
def drawCityMarkerPositions (ps : List (Option (ℝ × ℝ))) : List (ℝ × ℝ) :=
  ps.map (fun p => (cityMarkerCx p, cityMarkerCy p))

/-- Degrees to radians, as d3 converts the input coordinate and the
configured rotation angles. -/
def degToRad (d : ℝ) : ℝ := d * (Real.pi / 180)

/-- Longitude rotation of the d3-geo rotation (library code called by the
source's `projection`): add the rotation angle and renormalize into
[-π, π]. -/
def rotateLambdaFwd (deltaLambda lambda : ℝ) : ℝ :=
  if lambda + deltaLambda > Real.pi then lambda + deltaLambda - 2 * Real.pi
  else if lambda + deltaLambda < -Real.pi then lambda + deltaLambda + 2 * Real.pi
  else lambda + deltaLambda

/-- Two-argument arctangent with the JavaScript `Math.atan2` conventions
(`atan2(0, 0) = 0`), used by the d3-geo latitude rotation. -/
def jsAtan2 (y x : ℝ) : ℝ :=
  if 0 < x then Real.arctan (y / x)
  else if x < 0 then
    (if 0 ≤ y then Real.arctan (y / x) + Real.pi else Real.arctan (y / x) - Real.pi)
  else if 0 < y then Real.pi / 2
  else if y < 0 then -(Real.pi / 2)
  else 0

/-- Latitude rotation of d3-geo (`rotationPhiGamma` with γ = 0): rotate
the unit-sphere point of (λ, φ) by `deltaPhi` and read the new spherical
coordinates back. -/
def sphRotatePhi (deltaPhi lambda phi : ℝ) : ℝ × ℝ :=
  (jsAtan2 (Real.sin lambda * Real.cos phi)
     (Real.cos lambda * Real.cos phi * Real.cos deltaPhi - Real.sin phi * Real.sin deltaPhi),
   Real.arcsin (Real.sin phi * Real.cos deltaPhi + Real.cos lambda * Real.cos phi * Real.sin deltaPhi))

/-- Angular distance from the projection pole in the azimuthal raw
projection of d3-geo: `acos(cos λ · cos φ)`. -/
def azC (lambda phi : ℝ) : ℝ := Real.arccos (Real.cos lambda * Real.cos phi)

/-- Radial factor of d3-geo's `azimuthalEquidistantRaw`:
`(c = acos(cxcy)) && c / sin(c)`, which is 0 at the pole itself.  (At the
exact antipode the JavaScript expression divides by zero and yields a
non-finite number; real division by zero gives 0 here, a point no claim
touches.) -/
def azK (lambda phi : ℝ) : ℝ :=
  if azC lambda phi = 0 then 0 else azC lambda phi / Real.sin (azC lambda phi)

/-- Planar point of d3-geo's `azimuthalEquidistantRaw`:
`[k · cos φ · sin λ, k · sin φ]`. -/
def azRaw (lambda phi : ℝ) : ℝ × ℝ :=
  (azK lambda phi * Real.cos phi * Real.sin lambda, azK lambda phi * Real.sin phi)

/-- The azimuthal-equidistant raw projection applied to a rotated
spherical coordinate pair. -/
def azRawP (p : ℝ × ℝ) : ℝ × ℝ := azRaw p.1 p.2

/-- Full point projection of the source's
`d3.geoAzimuthalEquidistant().rotate([rotλ, rotφ]).scale(scale).translate([tx, ty])`:
degrees to radians, longitude then latitude rotation, raw projection, and
the d3 scale/translate transform `(x, y) ↦ (scale·x + tx, ty - scale·y)`.
Modelled from the d3-geo library the source calls; the spec describes it
as the center-preserving azimuthal-equidistant projection. -/
def d3project (rotLambdaDeg rotPhiDeg scale tx ty lonDeg latDeg : ℝ) : ℝ × ℝ :=
  (scale * (azRawP (sphRotatePhi (degToRad rotPhiDeg)
              (rotateLambdaFwd (degToRad rotLambdaDeg) (degToRad lonDeg))
              (degToRad latDeg))).1 + tx,
   ty - scale * (azRawP (sphRotatePhi (degToRad rotPhiDeg)
              (rotateLambdaFwd (degToRad rotLambdaDeg) (degToRad lonDeg))
              (degToRad latDeg))).2)

/-- Project a geographic coordinate through the engine's current
projection parameters, as `projection(d.coordinates)` does in the source. -/
def projectPoint (p : Projection) (lon lat : ℝ) : ℝ × ℝ :=
  d3project p.rotateLambda p.rotatePhi p.scale p.translateX p.translateY lon lat

/-- Property names every plain object literal inherits from
`Object.prototype`.  A JavaScript bracket lookup with any of these on
`ringConfigurations` or `mapScaleFactors` yields a function (or, for
`__proto__`, the prototype object itself), and all of those values are
truthy and non-nullish. -/
def objectPrototypeKeys : List String :=
  ["constructor", "hasOwnProperty", "isPrototypeOf", "propertyIsEnumerable",
   "toLocaleString", "toString", "valueOf",
   "__defineGetter__", "__defineSetter__", "__lookupGetter__", "__lookupSetter__",
   "__proto__"]

/-- What the JavaScript lookup `ringConfigurations[mode]` yields: one of
the two own config records, an inherited truthy non-config value from
`Object.prototype`, or `undefined`. -/
inductive ConfigLookup
  | config (m : RingMode)
  | inherited
  | missing
  deriving DecidableEq

/-- The bracket lookup on the `ringConfigurations` object literal,
prototype chain included: own keys first, then the inherited
`Object.prototype` properties, else `undefined`. -/
def ringConfigLookup (mode : String) : ConfigLookup :=
  if mode = "distance" then ConfigLookup.config RingMode.distance
  else if mode = "radius" then ConfigLookup.config RingMode.radius
  else if mode ∈ objectPrototypeKeys then ConfigLookup.inherited
  else ConfigLookup.missing

/-- JavaScript truthiness of the lookup result, as tested by the guard
`if (!ringConfigurations[mode]) return;`: a config record and an
inherited function or object are truthy; only `undefined` is falsy. -/
def ConfigLookup.truthy : ConfigLookup → Bool
  | ConfigLookup.config _ => true
  | ConfigLookup.inherited => true
  | ConfigLookup.missing => false

/-- Observables at the moment the watcher redraw throws after a mode
switch to an inherited property name: the `ringMode` ref already holds
the foreign string, the watcher has hidden the tooltip, and
`projection.scale` has been set to the NaN produced by
`baseScale * mapScaleFactors[mode]` (the lookup inherits a non-numeric
value, so the `??` fallback does not fire and the product is NaN). -/
structure RedrawCrash where
  modeStr : String
  tooltipHidden : Bool
  scaleNaN : Bool
  deriving DecidableEq

/-- Model of `changeRingMode` plus the `ringMode` watcher with the ref
carried as its raw string (first component of `cur`, kept in sync with
the typed state for table keys), faithful to the JavaScript guard at
every string.  The guard returns only on a falsy lookup; writing an
unchanged string does not trigger the watcher; for a table key the
watcher behaves as `refreshProjection` on the typed state.  For an
inherited `Object.prototype` property name the guard passes, the ref is
mutated, the watcher hides the tooltip, `getScale` multiplies the padded
dimension by the non-numeric `mapScaleFactors[mode]` giving a NaN scale,
and `drawDistanceRings` dereferences `.radiiKm` of the truthy non-config
`selectedConfig = ringConfigurations[mode] || ringConfigurations.distance`
(`undefined.map`), throwing the TypeError carried by the `error` branch. -/
def changeRingModeJs (cur : String × EngineState) (mode : String) :
    Except RedrawCrash (String × EngineState) :=
  if (ringConfigLookup mode).truthy = false then Except.ok cur
  else if mode = cur.1 then Except.ok cur
  else
    match ringConfigLookup mode with
    | ConfigLookup.config m =>
        Except.ok (mode, refreshProjection { cur.2 with ringMode := m, tooltipVisible := false })
    | ConfigLookup.inherited =>
        Except.error { modeStr := mode, tooltipHidden := true, scaleNaN := true }
    | ConfigLookup.missing => Except.ok cur

end

/-! ### Helper lemmas -/

/-- A keyed d3 data join always leaves exactly the elements keyed by the
incoming data: the update and enter partitions together cover the data
keys, and the exit partition removes everything else. -/
theorem dataJoin_eq (e d : Finset ℕ) : dataJoin e d = d := by
  unfold dataJoin
  ext x
  simp only [Finset.mem_union, Finset.mem_inter, Finset.mem_sdiff]
  tauto

/-- Degree conversion commutes with negation. -/
theorem degToRad_neg (x : ℝ) : degToRad (-x) = -degToRad x := by
  unfold degToRad; ring

/-- Rotating a longitude by its own negation lands exactly on 0 (the
renormalization branches do not fire at 0). -/
theorem rotateLambdaFwd_cancel (a : ℝ) : rotateLambdaFwd (-a) a = 0 := by
  unfold rotateLambdaFwd
  have h : a + -a = 0 := by ring
  rw [h]
  rw [if_neg (not_lt.mpr Real.pi_pos.le)]
  rw [if_neg (not_lt.mpr (by linarith [Real.pi_pos]))]

/-- The d3 latitude rotation by `-φ` maps the already-λ-rotated center
`(0, φ)` to the spherical origin. -/
theorem sphRotatePhi_center (phi : ℝ) : sphRotatePhi (-phi) 0 phi = (0, 0) := by
  unfold sphRotatePhi
  rw [Real.sin_zero, Real.cos_zero, Real.cos_neg, Real.sin_neg]
  have h1 : (0 : ℝ) * Real.cos phi = 0 := by ring
  have h2 : 1 * Real.cos phi * Real.cos phi - Real.sin phi * -Real.sin phi = 1 := by
    have hs := Real.sin_sq_add_cos_sq phi
    nlinarith [hs]
  have h3 : Real.sin phi * Real.cos phi + 1 * Real.cos phi * -Real.sin phi = 0 := by ring
  rw [h1, h2, h3, Real.arcsin_zero]
  have h4 : jsAtan2 0 1 = 0 := by
    unfold jsAtan2
    rw [if_pos one_pos]
    norm_num
  rw [h4]

/-- The azimuthal-equidistant raw projection maps the spherical origin to
the planar origin. -/
theorem azRaw_center : azRaw 0 0 = (0, 0) := by
  unfold azRaw
  rw [Real.sin_zero]
  norm_num

/-- Core of claim C1: projecting the very coordinate the projection was
rotated to (rotate = `[-lon, -lat]`) yields exactly the translate point,
for every center and every scale. -/
theorem center_projects (lon lat scale tx ty : ℝ) :
    d3project (-lon) (-lat) scale tx ty lon lat = (tx, ty) := by
  unfold d3project
  rw [degToRad_neg lon, degToRad_neg lat, rotateLambdaFwd_cancel, sphRotatePhi_center]
  simp [azRawP, azRaw_center]

/-- A full render pass never touches the projection parameters. -/
theorem renderAllLayers_proj (s : EngineState) : (renderAllLayers s).proj = s.proj := by
  unfold renderAllLayers drawDistanceRings
  cases hs : s.ready <;> simp [hs]

/-- A full render pass never touches readiness, the rect or the mode. -/
theorem renderAllLayers_ready (s : EngineState) :
    (renderAllLayers s).ready = s.ready ∧ (renderAllLayers s).rect = s.rect
      ∧ (renderAllLayers s).ringMode = s.ringMode := by
  unfold renderAllLayers drawDistanceRings
  cases hs : s.ready <;> simp [hs]

/-- The key list of the `rings` array: the table positions 0..7 followed
by the boundary key 999, for either mode and any scale. -/
theorem ringDataFor_indexes (m : RingMode) (scale : ℝ) :
    (ringDataFor m scale).map RingDatum.index = [0, 1, 2, 3, 4, 5, 6, 7, 999] := by
  cases m <;> simp [ringDataFor, ringConfigRadiiKm, List.enum]

/-- Both built-in ring tables have eight entries. -/
theorem ringConfigRadiiKm_length (m : RingMode) : (ringConfigRadiiKm m).length = 8 := by
  cases m <;> simp [ringConfigRadiiKm]

/-- Unfolding equation of the retry loop. -/
theorem tryCreateMapFrom_eq (ok : ℕ → Bool) (a : ℕ) :
    tryCreateMapFrom ok a
      = if maxAttempts ≤ a then false
        else if ok a then true else tryCreateMapFrom ok (a + 1) := by
  rw [tryCreateMapFrom]
  by_cases h : maxAttempts ≤ a <;> simp [h]

/-- The retry loop reaches Ready when some attempt within the budget
succeeds and the earlier ones fail. -/
theorem tryCreate_reaches (ok : ℕ → Bool) (n : ℕ) (hn : n < maxAttempts)
    (hok : ok n = true) :
    ∀ d a, n = a + d → (∀ k, k < n → ok k = false) → tryCreateMapFrom ok a = true := by
  intro d
  induction d with
  | zero =>
      intro a ha _
      rw [tryCreateMapFrom_eq, if_neg (by omega)]
      have : ok a = true := by rw [show a = n by omega] at *; exact hok
      rw [this]
      simp
  | succ d ih =>
      intro a ha hprev
      rw [tryCreateMapFrom_eq, if_neg (by omega), hprev a (by omega)]
      simpa using ih (a + 1) (by omega) hprev

/-- The retry loop gives up permanently when every attempt in the budget
fails. -/
theorem tryCreate_exhausts (ok : ℕ → Bool)
    (h : ∀ k, k < maxAttempts → ok k = false) :
    ∀ d a, maxAttempts = a + d → tryCreateMapFrom ok a = false := by
  intro d
  induction d with
  | zero =>
      intro a ha
      rw [tryCreateMapFrom_eq, if_pos (by omega)]
  | succ d ih =>
      intro a ha
      rw [tryCreateMapFrom_eq, if_neg (by omega), h a (by omega)]
      simpa using ih (a + 1) (by omega)

/-- A burst whose notifications each arrive strictly inside the debounce
window of the previous one collapses into exactly one callback run. -/
theorem debounce_single (window : ℕ) :
    ∀ (l : List ℕ) (t : ℕ), gapsWithin window (t :: l) →
      debounceFires window (t :: l) = 1 := by
  intro l
  induction l with
  | nil => intro t _; rfl
  | cons t2 rest ih =>
      intro t h
      have h' : t2 < t + window ∧ gapsWithin window (t2 :: rest) := h
      show (if t + window ≤ t2 then 1 else 0) + debounceFires window (t2 :: rest) = 1
      rw [if_neg (by omega), ih t2 h'.2]

/-- Mode-string lookup of "radius". -/
theorem parseMode_radius : parseMode "radius" = some RingMode.radius := rfl

/-- Mode-string lookup of "distance". -/
theorem parseMode_distance : parseMode "distance" = some RingMode.distance := rfl

/-- Field-level description of `refreshProjection` on a ready engine:
readiness, rect and mode survive; the scale is recomputed by `getScale`;
the rings are redrawn from the fresh scale; the tooltip is hidden and one
full render pass runs. -/
theorem refreshProjection_fields (s : EngineState) (h : s.ready = true) :
    (refreshProjection s).ready = true ∧ (refreshProjection s).rect = s.rect
      ∧ (refreshProjection s).ringMode = s.ringMode
      ∧ (refreshProjection s).proj.scale = getScale s.rect s.ringMode
      ∧ (refreshProjection s).ringRadii
          = (ringDataFor s.ringMode (getScale s.rect s.ringMode)).map RingDatum.radiusPx
      ∧ (refreshProjection s).drawCount = s.drawCount + 1
      ∧ (refreshProjection s).tooltipVisible = false := by
  unfold refreshProjection renderAllLayers drawDistanceRings
  simp [h]

/-- The projection parameters installed by a ready `navigateToLocation`
call: rotation to the negated center, scale from `getScale`, translate at
the viewport center. -/
theorem navigateToLocation_proj (s : EngineState) (c : ℝ × ℝ) (h : s.ready = true) :
    ((navigateToLocation s c).1).proj
      = { rotateLambda := -c.1, rotatePhi := -c.2, scale := getScale s.rect s.ringMode, translateX := s.rect.width / 2, translateY := s.rect.height / 2 } := by
  unfold navigateToLocation
  simp [h, renderAllLayers_proj]

/-- Navigating to a center and projecting that same center lands exactly
on the viewport center, for every center and ready engine. -/
theorem nav_project_center (s : EngineState) (lon lat : ℝ) (h : s.ready = true) :
    projectPoint ((navigateToLocation s (lon, lat)).1.proj) lon lat
      = (s.rect.width / 2, s.rect.height / 2) := by
  rw [navigateToLocation_proj s (lon, lat) h]
  unfold projectPoint
  exact center_projects lon lat _ _ _

/-! ### Claim theorems -/

/-- Claim C6: `initMap` retries container acquisition with a fixed 100 ms
delay and a bound of 20 attempts.  If the container reports zero size on
the first N−1 attempts and nonzero size on attempt N ≤ 20, the engine
completes `createMap` and its first draw (Ready); if every attempt within
the bound sees a zero size, the loop ends in the logged terminal failure
and the engine never becomes Ready.  The loop is a total Boolean-valued
function: no exception propagates. -/
theorem c6_sizing_retry :
    retryDelayMs = 100 ∧ maxAttempts = 20
    ∧ (∀ (ok : ℕ → Bool) (N : ℕ), 1 ≤ N → N ≤ maxAttempts →
        (∀ k, k < N - 1 → ok k = false) → ok (N - 1) = true →
        initMapResult ok = true)
    ∧ (∀ ok : ℕ → Bool, (∀ k, k < maxAttempts → ok k = false) →
        initMapResult ok = false) := by
  refine ⟨rfl, rfl, ?_, ?_⟩
  · intro ok N h1 h2 hzero hsucc
    exact tryCreate_reaches ok (N - 1) (by unfold maxAttempts at *; omega) hsucc
      (N - 1) 0 (by omega) hzero
  · intro ok hall
    exact tryCreate_exhausts ok hall maxAttempts 0 (by omega)

/-- Witness for C6: the container sizes on the third attempt, inside the
bound, so the engine reaches Ready; a container that never sizes within
the 20 attempts leaves the engine unready. -/
theorem c6_sizing_retry_witness :
    initMapResult (fun k => k == 2) = true
      ∧ initMapResult (fun _ => false) = false := by
  constructor
  · exact c6_sizing_retry.2.2.1 (fun k => k == 2) 3 (by omega) (by decide)
      (by decide) (by decide)
  · exact c6_sizing_retry.2.2.2 (fun _ => false) (fun k _ => rfl)

/-- Claim C7: resize notifications that each arrive within the 200 ms
debounce window of the previous one collapse into exactly one run of the
debounced callback; in particular 5 notifications fired 10 ms apart
produce exactly 1 full draw.  Each callback run (`invalidateSize` on a
ready engine) is one full re-render: it recomputes the projection scale
and performs one complete basemap/ring/marker pass. -/
theorem c7_debounce_collapses :
    (∀ (t : ℕ) (rest : List ℕ), gapsWithin debounceWindowMs (t :: rest) →
        debounceFires debounceWindowMs (t :: rest) = 1)
    ∧ debounceFires debounceWindowMs [0, 10, 20, 30, 40] = 1
    ∧ (∀ s : EngineState, s.ready = true →
        (invalidateSize s).drawCount = s.drawCount + 1
          ∧ (invalidateSize s).proj.scale = getScale s.rect s.ringMode) := by
  refine ⟨?_, by decide, ?_⟩
  · intro t rest h
    exact debounce_single debounceWindowMs rest t h
  · intro s hs
    unfold invalidateSize renderAllLayers drawDistanceRings
    simp [hs]

/-- Witness for C7: the canonical 5-notification burst at 10 ms spacing
satisfies the in-window hypothesis and yields exactly one callback run,
and that run on the concrete ready engine is one full redraw. -/
theorem c7_debounce_collapses_witness :
    debounceFires debounceWindowMs [0, 10, 20, 30, 40] = 1
      ∧ (invalidateSize readyState).drawCount = readyState.drawCount + 1 := by
  constructor
  · exact c7_debounce_collapses.1 0 [10, 20, 30, 40]
      (by simp [gapsWithin, debounceWindowMs])
  · exact (c7_debounce_collapses.2.2 readyState rfl).1

/-- Claim C1: for every valid center and positive viewport, `navigateTo`
followed by projecting the same center yields exactly the viewport center
(hence within any floating-point tolerance); in particular on a 1000×800
viewport, navigating to [139.6917, 35.6895] places that coordinate within
1 px of (500, 400). -/
theorem c1_navigate_then_project_centers :
    (∀ (s : EngineState) (lon lat : ℝ), s.ready = true →
        -180 ≤ lon → lon ≤ 180 → -90 ≤ lat → lat ≤ 90 →
        0 < s.rect.width → 0 < s.rect.height →
        projectPoint ((navigateToLocation s (lon, lat)).1.proj) lon lat
          = (s.rect.width / 2, s.rect.height / 2))
    ∧ (∀ s : EngineState, s.ready = true → s.rect.width = 1000 → s.rect.height = 800 →
        |(projectPoint ((navigateToLocation s (139.6917, 35.6895)).1.proj) 139.6917 35.6895).1 - 500| ≤ 1
          ∧ |(projectPoint ((navigateToLocation s (139.6917, 35.6895)).1.proj) 139.6917 35.6895).2 - 400| ≤ 1) := by
  constructor
  · intro s lon lat h _ _ _ _ _ _
    exact nav_project_center s lon lat h
  · intro s h hw hh
    rw [nav_project_center s 139.6917 35.6895 h, hw, hh]
    norm_num

/-- Witness for C1: the concrete 1000×800 ready engine, center Tokyo. -/
theorem c1_navigate_then_project_centers_witness :
    projectPoint ((navigateToLocation readyState (139.6917, 35.6895)).1.proj) 139.6917 35.6895
        = (readyState.rect.width / 2, readyState.rect.height / 2)
      ∧ |(projectPoint ((navigateToLocation readyState (139.6917, 35.6895)).1.proj) 139.6917 35.6895).1 - 500| ≤ 1 := by
  constructor
  · exact c1_navigate_then_project_centers.1 readyState 139.6917 35.6895 rfl
      (by norm_num) (by norm_num) (by norm_num) (by norm_num)
      (by norm_num [readyState, createdState]) (by norm_num [readyState, createdState])
  · exact (c1_navigate_then_project_centers.2 readyState rfl rfl rfl).1

/-- Claim C2: after every ring render on a ready engine — in particular
one triggered by a mode switch, whatever circles existed before — the ring
layer holds exactly one circle per entry of the active mode's table plus
the permanent boundary circle at pixel radius `scale * π` (8 + 1 circles),
and every remaining circle is keyed by the new data, so no key from a
previous render survives the exit phase. -/
theorem c2_ring_count_after_render :
    ∀ s : EngineState, s.ready = true →
      ((drawDistanceRings s).ringKeys.card = (ringConfigRadiiKm s.ringMode).length + 1)
      ∧ (({ index := 999, radiusPx := s.proj.scale * Real.pi, isBoundary := true, label := "", originalValue := none } : RingDatum)
            ∈ ringDataFor s.ringMode s.proj.scale)
      ∧ (∀ k ∈ (drawDistanceRings s).ringKeys,
          k ∈ (ringDataFor s.ringMode s.proj.scale).map RingDatum.index) := by
  intro s hs
  have hkeys : (drawDistanceRings s).ringKeys
      = ((ringDataFor s.ringMode s.proj.scale).map RingDatum.index).toFinset := by
    unfold drawDistanceRings
    simp [hs, dataJoin_eq]
  refine ⟨?_, ?_, ?_⟩
  · rw [hkeys, ringDataFor_indexes, ringConfigRadiiKm_length]
    decide
  · unfold ringDataFor
    simp
  · intro k hk
    rw [hkeys] at hk
    simpa using hk

/-- Witness for C2: the concrete ready engine renders 8 + 1 ring circles
and the boundary key 999 is among the incoming data keys. -/
theorem c2_ring_count_after_render_witness :
    (drawDistanceRings readyState).ringKeys.card
        = (ringConfigRadiiKm readyState.ringMode).length + 1
      ∧ 999 ∈ (ringDataFor readyState.ringMode readyState.proj.scale).map RingDatum.index := by
  have h := c2_ring_count_after_render readyState rfl
  refine ⟨h.1, h.2.2 999 ?_⟩
  unfold drawDistanceRings
  simp [readyState, createdState, dataJoin_eq, ringDataFor_indexes]

/-- Claim C3: the projection scale is always
`min(width − 2·padding, height − 2·padding) · modeFactor(mode)` with the
fixed padding 32 and the fixed two-entry factor table (1.05 for
'distance', 0.6 for 'radius' — distinct), and the very same `getScale`
value is installed at creation, on navigation and on resize. -/
theorem c3_scale_formula :
    (∀ (rect : Rect) (mode : RingMode),
        getScale rect mode
          = min (rect.width - 2 * padding) (rect.height - 2 * padding) * mapScaleFactors mode)
    ∧ padding = 32
    ∧ mapScaleFactors RingMode.distance ≠ mapScaleFactors RingMode.radius
    ∧ (∀ rect : Rect, (createdState rect).proj.scale = getScale rect RingMode.distance)
    ∧ (∀ (s : EngineState) (c : ℝ × ℝ), s.ready = true →
        ((navigateToLocation s c).1).proj.scale = getScale s.rect s.ringMode)
    ∧ (∀ s : EngineState, s.ready = true →
        (invalidateSize s).proj.scale = getScale s.rect s.ringMode) := by
  refine ⟨?_, rfl, ?_, ?_, ?_, ?_⟩
  · intro rect mode
    unfold getScale
    have h : padding * 2 = 2 * padding := by ring
    rw [h]
  · unfold mapScaleFactors
    norm_num
  · intro rect
    rfl
  · intro s c hs
    rw [navigateToLocation_proj s c hs]
  · intro s hs
    unfold invalidateSize
    simp [hs, renderAllLayers_proj]

/-- Witness for C3: the ready-state hypotheses hold at the concrete
1000×800 engine. -/
theorem c3_scale_formula_witness :
    ((navigateToLocation readyState (139.6917, 35.6895)).1).proj.scale
        = getScale readyState.rect readyState.ringMode
      ∧ (invalidateSize readyState).proj.scale = getScale readyState.rect readyState.ringMode :=
  ⟨c3_scale_formula.2.2.2.2.1 readyState (139.6917, 35.6895) rfl,
   c3_scale_formula.2.2.2.2.2 readyState rfl⟩

/-- Claim C4: every non-boundary ring of the active table is drawn with
pixel radius `scale · (v' · 1000 / 6371000)`, where the metric value is
divided by the fixed factor 10 exactly when the active mode is 'radius'
and used unchanged in 'distance' mode. -/
theorem c4_radius_mode_divisor :
    ∀ (mode : RingMode) (scale : ℝ),
      ((ringDataFor mode scale).filter (fun d => !d.isBoundary)).map RingDatum.radiusPx
        = (ringConfigRadiiKm mode).map
            (fun v => scale * ((if mode = RingMode.radius then v / 10 else v) * 1000 / 6371000)) := by
  intro mode scale
  cases mode <;>
    simp [ringDataFor, ringConfigRadiiKm, ringConfigNames, earthRadiusMeters, List.enum]

/-- Claim C5: with an unchanged viewport, switching the metric mode from
'distance' to 'radius' and back reproduces exactly the original ring
pixel radii, because each mode's radii are a deterministic function of
the mode, the rect, and the fixed ring tables.  The hypotheses say the
starting state is a rendered distance-mode state in sync with its rect. -/
theorem c5_mode_roundtrip :
    ∀ s : EngineState, s.ready = true → s.ringMode = RingMode.distance →
      s.proj.scale = getScale s.rect RingMode.distance →
      s.ringRadii = (ringDataFor RingMode.distance s.proj.scale).map RingDatum.radiusPx →
      (changeRingMode (changeRingMode s "radius") "distance").ringRadii = s.ringRadii := by
  intro s h1 h2 h3 h4
  have hstep1 : changeRingMode s "radius"
      = refreshProjection { s with ringMode := RingMode.radius, tooltipVisible := false } := by
    simp only [changeRingMode, parseMode_radius]
    rw [if_neg (by rw [h2]; decide)]
  have hf1 := refreshProjection_fields
    { s with ringMode := RingMode.radius, tooltipVisible := false } (by simpa using h1)
  have hmode1 : (changeRingMode s "radius").ringMode = RingMode.radius := by
    rw [hstep1]; simpa using hf1.2.2.1
  have hready1 : (changeRingMode s "radius").ready = true := by
    rw [hstep1]; exact hf1.1
  have hrect1 : (changeRingMode s "radius").rect = s.rect := by
    rw [hstep1]; simpa using hf1.2.1
  generalize hgen : changeRingMode s "radius" = s1 at hmode1 hready1 hrect1 ⊢
  have hstep2 : changeRingMode s1 "distance"
      = refreshProjection { s1 with ringMode := RingMode.distance, tooltipVisible := false } := by
    simp only [changeRingMode, parseMode_distance]
    rw [if_neg (by rw [hmode1]; decide)]
  have hf2 := refreshProjection_fields
    { s1 with ringMode := RingMode.distance, tooltipVisible := false } (by simpa using hready1)
  rw [hstep2, hf2.2.2.2.2.1]
  simp only
  rw [hrect1, h4, h3]

/-- Witness for C5: the round trip on the freshly drawn 1000×800 engine
restores the distance-mode radii. -/
theorem c5_mode_roundtrip_witness :
    (changeRingMode (changeRingMode (initialDraw { width := 1000, height := 800 }) "radius") "distance").ringRadii
      = (initialDraw { width := 1000, height := 800 }).ringRadii :=
  c5_mode_roundtrip (initialDraw { width := 1000, height := 800 }) rfl rfl rfl rfl

/-- Claim C8 (amended): calling `navigateToLocation` before Ready is a
silent no-op — the guard returns with no value, the total function throws
nothing, and all engine state is unchanged — but, contrary to the claim,
the guard path logs nothing (the console-output component is empty). -/
theorem c8_nav_before_ready :
    ∀ (s : EngineState) (c : ℝ × ℝ), s.ready = false →
      navigateToLocation s c = (s, []) := by
  intro s c h
  unfold navigateToLocation
  simp [h]

/-- Counterexample for C8 as stated: on the concrete pre-Ready engine the
navigation call emits no log at all, refuting "logs the condition". -/
theorem c8_nav_before_ready_counterexample :
    (navigateToLocation preReadyState (139.6917, 35.6895)).2 = [] := by
  unfold navigateToLocation
  simp [preReadyState]

/-- Witness for C8: the amended statement applied at the concrete
pre-Ready engine and the Taiwan center. -/
theorem c8_nav_before_ready_witness :
    navigateToLocation preReadyState (120.982025, 23.973875) = (preReadyState, []) :=
  c8_nav_before_ready preReadyState (120.982025, 23.973875) rfl

/-- Claim C9 (amended): a marker whose projection is null this frame is
handled totally — the marker pass yields one position per marker and null
is never escalated to an error — but the null marker is assigned the
fixed fallback position (0, 0) (the viewport's top-left corner) rather
than an undefined or clipped position. -/
theorem c9_null_marker_fallback :
    (∀ ps : List (Option (ℝ × ℝ)), (drawCityMarkerPositions ps).length = ps.length)
    ∧ drawCityMarkerPositions [none] = [(0, 0)]
    ∧ (∀ q : ℝ × ℝ, cityMarkerCx (some q) = q.1 ∧ cityMarkerCy (some q) = q.2) := by
  refine ⟨?_, rfl, ?_⟩
  · intro ps
    simp [drawCityMarkerPositions]
  · intro q
    exact ⟨rfl, rfl⟩

/-- Counterexample for C9 as stated: the position assigned to a
null-projected marker is the definite coordinate (0, 0), which lies
inside a 1000×800 viewport — the marker is drawn on-screen at the
top-left corner, not treated as off-screen with an undefined position. -/
theorem c9_null_marker_fallback_counterexample :
    cityMarkerCx none = 0 ∧ cityMarkerCy none = 0
      ∧ (0 : ℝ) ≤ cityMarkerCx none ∧ cityMarkerCx none < 1000
      ∧ (0 : ℝ) ≤ cityMarkerCy none ∧ cityMarkerCy none < 800 := by
  refine ⟨rfl, rfl, ?_, ?_, ?_, ?_⟩ <;> norm_num [cityMarkerCx, cityMarkerCy]

/-- Claim C10, settled as a code bug: the claim (like the spec's
"invalid values are ignored (no state change), not errors") is the
evident intent, but the guard `!ringConfigurations[mode]` consults the
prototype chain.  At the failing input "toString" on the ready engine
the lookup is truthy without being a config record, so the call is not
ignored: the `ringMode` ref is mutated to "toString", the watcher hides
the tooltip and installs a NaN scale, and the redraw throws a TypeError
— state changed plus an escaped error instead of a no-op.  A genuinely
missing string and the already-active mode are ignored unchanged, and a
different table key performs the full redraw, as the claim describes. -/
theorem c10_prototype_key_bug :
    (ringConfigLookup "toString").truthy = true
    ∧ (∀ m : RingMode, ringConfigLookup "toString" ≠ ConfigLookup.config m)
    ∧ changeRingModeJs ("distance", readyState) "toString"
        = Except.error { modeStr := "toString", tooltipHidden := true, scaleNaN := true }
    ∧ changeRingModeJs ("distance", readyState) "bogus"
        = Except.ok ("distance", readyState)
    ∧ changeRingModeJs ("distance", readyState) "distance"
        = Except.ok ("distance", readyState)
    ∧ changeRingModeJs ("distance", readyState) "radius"
        = Except.ok ("radius",
            refreshProjection { readyState with ringMode := RingMode.radius, tooltipVisible := false }) := by
  refine ⟨rfl, ?_, rfl, rfl, rfl, rfl⟩
  intro m
  cases m <;> decide

end PlanetRings
